import Mathlib

/-
Verification of the `PilotListController` from
`standingsrequests/static/standingsrequests/view_pilots.js`.

The controller body is:

    standingsApp.controller('PilotListController', function ($scope, $http) {
        $scope.getData = function () {
            $http.get(urls.pilots_json).then(function(response) {
                // Success
                $scope.pilots = response.data;
            }, function(response) {
                // Unsuccessful
            });
        };
        $scope.currentPage = 1;
        $scope.pageSize = '50';
        $scope.getData();
    });

We embed it shallowly: scope fields become record fields, the dynamic
`$scope.pilots` field (never assigned before the first successful fetch)
becomes an `Option`, JavaScript primitive values (needed to distinguish the
string `'50'` from the number `50`) become an inductive `JSVal`, and the
asynchronous promise machinery becomes an explicit event-trace semantics:
`refresh` issues a GET (incrementing the in-flight count and appending to the
issued-request log), and a `resolve` event settles one in-flight request with
an outcome, running the corresponding `.then` callback.
-/

namespace StandingsRequests

/-- A JavaScript primitive value, as far as this controller needs one:
either a number or a string.  The source assigns `$scope.pageSize = '50'`
(a string literal), so the embedding must keep numbers and strings apart. -/
inductive JSVal where
  | num (n : Int)
  | str (s : String)
deriving DecidableEq, Repr

/-- Possible outcomes of the `$http.get` promise.  A success carries the
parsed collection payload (`response.data`); the three failure constructors
mirror the failure kinds named by the documentation (network error,
non-success HTTP status, unparseable payload).  The controller's error
callback receives all of them alike and ignores the distinction. -/
inductive FetchOutcome (α : Type) where
  | success (payload : List α)
  | networkError
  | httpError (status : Nat)
  | malformedPayload
deriving DecidableEq, Repr

/-- An outcome that takes the error (second) callback of `.then`. -/
def FetchOutcome.isFailure {α : Type} : FetchOutcome α → Bool
  | .success _ => false
  | _ => true

/-- The endpoint constant `urls.pilots_json`, opaque to the controller. -/
def urls_pilots_json : String := "urls.pilots_json"

/-- The `$scope` state of `PilotListController` after its body has run,
together with transport bookkeeping.  `pilots` is `none` while the scope
field `$scope.pilots` is still unassigned (JavaScript `undefined`);
`pending` counts in-flight GET requests; `issued` logs every GET issued,
in order, by target URL. -/
structure CtrlState (α : Type) where
  pilots : Option (List α)
  currentPage : Int
  pageSize : JSVal
  pending : Nat
  issued : List String
deriving DecidableEq, Repr

/-- The success callback of `getData`: `$scope.pilots = response.data`. -/
def getDataOnSuccess {α : Type} (s : CtrlState α) (data : List α) : CtrlState α :=
  { s with pilots := some data }

/-- The error callback of `getData`: an empty body, so the state is
returned unchanged and nothing is thrown. -/
def getDataOnError {α : Type} (s : CtrlState α) : CtrlState α :=
  s

/-- `$scope.getData()`: issues exactly one GET to `urls.pilots_json`.
The callbacks run later, when the promise settles. -/
def getData {α : Type} (s : CtrlState α) : CtrlState α :=
  { s with pending := s.pending + 1, issued := s.issued ++ [urls_pilots_json] }

/-- One in-flight request settles with outcome `o`: the success callback
runs on a success, the error callback on any failure.  If nothing is
in flight the event is a no-op. -/
def settle {α : Type} (s : CtrlState α) (o : FetchOutcome α) : CtrlState α :=
  if s.pending = 0 then s
  else
    match o with
    | .success data => { getDataOnSuccess s data with pending := s.pending - 1 }
    | _ => { getDataOnError s with pending := s.pending - 1 }

/-- Observable events after initialization: a manual `$scope.getData()`
call, the settling of one in-flight request, and the view writing the
two pagination fields through data binding. -/
inductive Event (α : Type) where
  | refresh
  | resolve (o : FetchOutcome α)
  | setPage (p : Int)
  | setPageSize (v : JSVal)
deriving DecidableEq, Repr

/-- Effect of one event on the controller state. -/
def stepEv {α : Type} (s : CtrlState α) : Event α → CtrlState α
  | .refresh => getData s
  | .resolve o => settle s o
  | .setPage p => { s with currentPage := p }
  | .setPageSize v => { s with pageSize := v }

/-- Run a sequence of events from a state. -/
def run {α : Type} (s : CtrlState α) (es : List (Event α)) : CtrlState α :=
  es.foldl stepEv s

/-- The state immediately after the controller body has run and before any
promise settles: `$scope.pilots` was never assigned, `currentPage` is the
number `1`, `pageSize` is the string `'50'`, and the single GET issued by
the trailing `$scope.getData()` call is still in flight. -/
def initState (α : Type) : CtrlState α :=
  { pilots := none
    currentPage := 1
    pageSize := JSVal.str "50"
    pending := 1
    issued := [urls_pilots_json] }

/-- `some p` when `o = some p`, otherwise the default `d`. -/
def fallback {α : Type} (o : Option α) (d : Option α) : Option α :=
  match o with
  | some a => some a
  | none => d

/-- The payload a single event contributes: `some p` exactly when the event
is an effective successful resolution (a request is in flight), `none`
otherwise. -/
def headSuccess {α : Type} (s : CtrlState α) : Event α → Option (List α)
  | Event.resolve (FetchOutcome.success p) => if s.pending = 0 then none else some p
  | _ => none

/-- Payload of the most recent success among the effective resolutions in a
trace (a `resolve` event is effective when a request is in flight), or
`none` when no effective success occurs. -/
def lastSuccessPayload {α : Type} : CtrlState α → List (Event α) → Option (List α)
  | _, [] => none
  | s, e :: es => fallback (lastSuccessPayload (stepEv s e) es) (headSuccess s e)

/-- The three statements of the controller body, in source order. -/
inductive BodyStmt where
  | assignCurrentPage
  | assignPageSize
  | callGetData
deriving DecidableEq, Repr

/-- The controller body:
`$scope.currentPage = 1; $scope.pageSize = '50'; $scope.getData();`. -/
def controllerBody : List BodyStmt :=
  [BodyStmt.assignCurrentPage, BodyStmt.assignPageSize, BodyStmt.callGetData]

/-- A scope in which fields may still be unassigned (`undefined`), as it is
while the controller body is executing. -/
structure RawScope (α : Type) where
  pilots : Option (List α)
  currentPage : Option Int
  pageSize : Option JSVal
deriving DecidableEq, Repr

/-- Scope plus transport bookkeeping during the controller body. -/
structure RawState (α : Type) where
  scope : RawScope α
  pending : Nat
  issued : List String
deriving DecidableEq, Repr

/-- The state handed to the controller body: every scope field unassigned,
no request issued. -/
def freshState (α : Type) : RawState α :=
  { scope := { pilots := none, currentPage := none, pageSize := none }
    pending := 0
    issued := [] }

/-- Effect of one body statement. -/
def execStmt {α : Type} (s : RawState α) : BodyStmt → RawState α
  | .assignCurrentPage => { s with scope := { s.scope with currentPage := some 1 } }
  | .assignPageSize => { s with scope := { s.scope with pageSize := some (JSVal.str "50") } }
  | .callGetData => { s with pending := s.pending + 1, issued := s.issued ++ [urls_pilots_json] }

/-- Run a list of body statements. -/
def execBody {α : Type} (s : RawState α) (l : List BodyStmt) : RawState α :=
  l.foldl execStmt s

/-- Executing the whole controller body from a fresh scope yields exactly
the initial state of the event semantics. -/
theorem execBody_controllerBody (α : Type) :
    execBody (freshState α) controllerBody =
      { scope :=
          { pilots := (initState α).pilots
            currentPage := some (initState α).currentPage
            pageSize := some (initState α).pageSize }
        pending := (initState α).pending
        issued := (initState α).issued } :=
  rfl

/-- Neither `settle` callback touches `currentPage`. -/
theorem settle_currentPage {α : Type} (s : CtrlState α) (o : FetchOutcome α) :
    (settle s o).currentPage = s.currentPage := by
  by_cases h : s.pending = 0 <;> cases o <;>
    simp [settle, getDataOnSuccess, getDataOnError, h]

/-- Neither `settle` callback touches `pageSize`. -/
theorem settle_pageSize {α : Type} (s : CtrlState α) (o : FetchOutcome α) :
    (settle s o).pageSize = s.pageSize := by
  by_cases h : s.pending = 0 <;> cases o <;>
    simp [settle, getDataOnSuccess, getDataOnError, h]

/-- One step changes `pilots` exactly by the head event's contribution. -/
theorem stepEv_pilots {α : Type} (s : CtrlState α) (e : Event α) :
    (stepEv s e).pilots = fallback (headSuccess s e) s.pilots := by
  cases e with
  | refresh => simp [stepEv, getData, headSuccess, fallback]
  | resolve o =>
    cases o with
    | success p =>
      by_cases hp : s.pending = 0 <;>
        simp [stepEv, settle, headSuccess, fallback, hp, getDataOnSuccess]
    | networkError =>
      by_cases hp : s.pending = 0 <;>
        simp [stepEv, settle, headSuccess, fallback, hp, getDataOnError]
    | httpError st =>
      by_cases hp : s.pending = 0 <;>
        simp [stepEv, settle, headSuccess, fallback, hp, getDataOnError]
    | malformedPayload =>
      by_cases hp : s.pending = 0 <;>
        simp [stepEv, settle, headSuccess, fallback, hp, getDataOnError]
  | setPage p => simp [stepEv, headSuccess, fallback]
  | setPageSize v => simp [stepEv, headSuccess, fallback]

/-- After any trace, the `pilots` field holds the payload of the most
recent effective successful resolution, or its starting value when no such
resolution occurred.  This is the key structural fact behind the state
invariant. -/
theorem run_pilots {α : Type} (es : List (Event α)) (s : CtrlState α) :
    (run s es).pilots = fallback (lastSuccessPayload s es) s.pilots := by
  induction es generalizing s with
  | nil => rfl
  | cons e tl ih =>
    have hrun : run s (e :: tl) = run (stepEv s e) tl := rfl
    rw [hrun, ih (stepEv s e)]
    show fallback (lastSuccessPayload (stepEv s e) tl) (stepEv s e).pilots =
      fallback (fallback (lastSuccessPayload (stepEv s e) tl) (headSuccess s e)) s.pilots
    rcases hlast : lastSuccessPayload (stepEv s e) tl with _ | p
    · simpa [fallback] using stepEv_pilots s e
    · simp [fallback]

/-- C1 (as stated, refuted): immediately after the controller body runs and
before any fetch resolves, it is NOT the case that the collection is the
empty sequence, `currentPage = 1`, and `pageSize` is the number `50`: the
source never assigns `$scope.pilots` (so it is absent, not `[]`) and
assigns the string `'50'` to `pageSize`, not the number `50`. -/
theorem C1_counterexample :
    ¬ ((initState Nat).pilots = some [] ∧ (initState Nat).currentPage = 1 ∧
        (initState Nat).pageSize = JSVal.num 50) := by
  decide

/-- C1 (amended, proved): immediately after the controller body runs and
before any fetch resolves, the `pilots` field is absent (never assigned),
`currentPage` equals `1`, and `pageSize` equals the string `'50'`. -/
theorem C1_initial_state (α : Type) :
    (initState α).pilots = none ∧ (initState α).currentPage = 1 ∧
      (initState α).pageSize = JSVal.str "50" :=
  ⟨rfl, rfl, rfl⟩

/-- C2: from any state, calling `getData` and having the fetch resolve with
payload `pl` leaves `pilots` equal to exactly `some pl` — same elements,
same order, nothing added, removed, or transformed — replacing whatever was
there before. -/
theorem C2_success_replaces_wholesale (α : Type) (s : CtrlState α) (pl : List α) :
    (run s [Event.refresh, Event.resolve (FetchOutcome.success pl)]).pilots = some pl := by
  simp [run, List.foldl, stepEv, getData, settle, getDataOnSuccess]

/-- C3: from any state, calling `getData` and having the fetch fail leaves
`pilots` unchanged from its pre-call value; the error callback is a no-op,
so (by totality of the embedding) nothing is thrown to the caller. -/
theorem C3_failure_preserves (α : Type) (s : CtrlState α) (o : FetchOutcome α)
    (h : o.isFailure = true) :
    (run s [Event.refresh, Event.resolve o]).pilots = s.pilots := by
  cases o with
  | success pl => simp [FetchOutcome.isFailure] at h
  | networkError => simp [run, List.foldl, stepEv, getData, settle, getDataOnError]
  | httpError st => simp [run, List.foldl, stepEv, getData, settle, getDataOnError]
  | malformedPayload => simp [run, List.foldl, stepEv, getData, settle, getDataOnError]

/-- C3 witness: a concrete failing fetch from the initial state leaves
`pilots` at its initial (absent) value. -/
theorem C3_failure_preserves_witness :
    (FetchOutcome.networkError : FetchOutcome Nat).isFailure = true ∧
      (run (initState Nat)
        [Event.refresh, Event.resolve FetchOutcome.networkError]).pilots =
        (initState Nat).pilots :=
  ⟨rfl, C3_failure_preserves Nat (initState Nat) FetchOutcome.networkError rfl⟩

/-- C4: a malformed/unparseable payload takes the error callback like every
other failure — the resulting state is identical to the one after a network
error (the code does not distinguish failure kinds) — and `pilots` is left
unchanged. -/
theorem C4_malformed_is_failure (α : Type) (s : CtrlState α) :
    run s [Event.refresh, Event.resolve (FetchOutcome.malformedPayload : FetchOutcome α)] =
        run s [Event.refresh, Event.resolve FetchOutcome.networkError] ∧
      (run s [Event.refresh, Event.resolve
        (FetchOutcome.malformedPayload : FetchOutcome α)]).pilots = s.pilots := by
  constructor
  · simp [run, List.foldl, stepEv, getData, settle, getDataOnError]
  · simp [run, List.foldl, stepEv, getData, settle, getDataOnError]

/-- C5 (as stated, refuted): it is not true that in every reachable state
`pilots` is either the empty sequence or the most recent success payload:
in the initial state (the empty trace) it is absent (`none`), which is
neither `some []` nor any fetched payload. -/
theorem C5_counterexample :
    ¬ ((run (initState Nat) []).pilots = some [] ∨
        ∃ p, lastSuccessPayload (initState Nat) [] = some p ∧
          (run (initState Nat) []).pilots = some p) := by
  intro h
  rcases h with h | ⟨p, hp, _⟩
  · exact absurd h (by decide)
  · exact Option.noConfusion hp

/-- C5 (amended, proved): in every state reachable from initialization by
any sequence of refreshes, resolutions (successes and failures), and
pagination writes, the `pilots` field is either absent (its never-assigned
initial state) or exactly the payload of the most recent effective
successful resolution — never a partial or in-flight value. -/
theorem C5_invariant (α : Type) (es : List (Event α)) :
    (run (initState α) es).pilots = none ∨
      ∃ p, lastSuccessPayload (initState α) es = some p ∧
        (run (initState α) es).pilots = some p := by
  have h := run_pilots es (initState α)
  rcases hlast : lastSuccessPayload (initState α) es with _ | p
  · left
    rw [h, hlast]
    rfl
  · right
    exact ⟨p, rfl, by rw [h, hlast]; rfl⟩

/-- C6: a `getData` call, whatever the outcome of its fetch (success with
any payload, or any failure), leaves `currentPage` and `pageSize`
unchanged; the in-flight phase does not touch them either. -/
theorem C6_refresh_preserves_pagination (α : Type) (s : CtrlState α) (o : FetchOutcome α) :
    ((run s [Event.refresh]).currentPage = s.currentPage ∧
        (run s [Event.refresh]).pageSize = s.pageSize) ∧
      ((run s [Event.refresh, Event.resolve o]).currentPage = s.currentPage ∧
        (run s [Event.refresh, Event.resolve o]).pageSize = s.pageSize) := by
  refine ⟨⟨rfl, rfl⟩, ?_, ?_⟩
  · show (settle (getData s) o).currentPage = s.currentPage
    rw [settle_currentPage]
    rfl
  · show (settle (getData s) o).pageSize = s.pageSize
    rw [settle_pageSize]
    rfl

/-- C7: writing the `currentPage` field to any integer `p` sets it to `p`,
issues no network request, and leaves `pilots` and `pageSize` unchanged. -/
theorem C7_setPage_independent (α : Type) (s : CtrlState α) (p : Int) :
    (stepEv s (Event.setPage p)).currentPage = p ∧
      (stepEv s (Event.setPage p)).pilots = s.pilots ∧
      (stepEv s (Event.setPage p)).pageSize = s.pageSize ∧
      (stepEv s (Event.setPage p)).issued = s.issued ∧
      (stepEv s (Event.setPage p)).pending = s.pending :=
  ⟨rfl, rfl, rfl, rfl, rfl⟩

/-- C8 (as stated, refuted): the controller body does not set `pageSize` to
the number `50`: it assigns the string literal `'50'`. -/
theorem C8_counterexample :
    ¬ (execBody (freshState Nat) controllerBody).scope.pageSize = some (JSVal.num 50) := by
  decide

/-- C8 (amended, proved): the controller body issues exactly one GET to the
configured endpoint, and at every point of the body at which a request has
already been issued, the pagination defaults `currentPage = 1` and
`pageSize = '50'` (a string) are already in place — the defaults are set
before the fetch is issued. -/
theorem C8_init_order (α : Type) :
    (execBody (freshState α) controllerBody).issued = [urls_pilots_json] ∧
      ∀ n : Nat, (execBody (freshState α) (controllerBody.take n)).issued ≠ [] →
        (execBody (freshState α) (controllerBody.take n)).scope.currentPage = some 1 ∧
          (execBody (freshState α) (controllerBody.take n)).scope.pageSize =
            some (JSVal.str "50") := by
  refine ⟨rfl, fun n h => ?_⟩
  match n with
  | 0 => exact absurd rfl h
  | 1 => exact absurd rfl h
  | 2 => exact absurd rfl h
  | m + 3 =>
    have ht : controllerBody.take (m + 3) = controllerBody :=
      List.take_of_length_le (by simp [controllerBody])
    rw [ht]
    exact ⟨rfl, rfl⟩

/-- C8 witness: at the end of the body a request has been issued, and the
defaults are in place. -/
theorem C8_init_order_witness :
    (execBody (freshState Nat) (controllerBody.take 3)).issued ≠ [] ∧
      (execBody (freshState Nat) (controllerBody.take 3)).scope.currentPage = some 1 :=
  ⟨by decide, ((C8_init_order Nat).2 3 (by decide)).1⟩

/-- C9: with two `getData` calls in flight, both requests stay pending
(neither is cancelled or superseded), and whichever successful response
resolves last determines `pilots` — in either resolution order. -/
theorem C9_last_resolved_wins (α : Type) (s : CtrlState α) (p1 p2 : List α) :
    (run s [Event.refresh, Event.refresh, Event.resolve (FetchOutcome.success p1),
        Event.resolve (FetchOutcome.success p2)]).pilots = some p2 ∧
      (run s [Event.refresh, Event.refresh, Event.resolve (FetchOutcome.success p2),
        Event.resolve (FetchOutcome.success p1)]).pilots = some p1 ∧
      (run s [Event.refresh, Event.refresh]).pending = s.pending + 2 := by
  refine ⟨?_, ?_, rfl⟩ <;>
    simp [run, List.foldl, stepEv, getData, settle, getDataOnSuccess]

/-- C10: as long as no effective successful resolution has occurred in the
trace — however many failed fetches and pagination writes it contains — the
`pilots` field has never been assigned: it is absent (`none`), not an empty
list. -/
theorem C10_absent_until_success (α : Type) (es : List (Event α))
    (h : lastSuccessPayload (initState α) es = none) :
    (run (initState α) es).pilots = none := by
  rw [run_pilots, h]
  rfl

/-- C10 witness: a concrete trace with a failed fetch, pagination writes,
and a second refresh with another failure still leaves `pilots` absent. -/
theorem C10_absent_until_success_witness :
    lastSuccessPayload (initState Nat)
        [Event.refresh, Event.resolve FetchOutcome.networkError, Event.setPage 3,
          Event.setPageSize (JSVal.num 25),
          Event.resolve FetchOutcome.malformedPayload] = none ∧
      (run (initState Nat)
        [Event.refresh, Event.resolve FetchOutcome.networkError, Event.setPage 3,
          Event.setPageSize (JSVal.num 25),
          Event.resolve FetchOutcome.malformedPayload]).pilots = none :=
  ⟨by decide,
    C10_absent_until_success Nat
      [Event.refresh, Event.resolve FetchOutcome.networkError, Event.setPage 3,
        Event.setPageSize (JSVal.num 25),
        Event.resolve FetchOutcome.malformedPayload] (by decide)⟩

end StandingsRequests
